import Mathlib

/-!
Shallow embedding of the radar packet decoder in `src/data.py`
(classes `BytesUtils`, `MathUtils`, `PacketInfo`, `DetectedObject`,
`PacketHandler`).

Conventions of the embedding:
* A Python `bytes` buffer is a `List Nat` (each element a byte value).
* Python slicing `data[i:j:1]` is total (it truncates); it is embedded by
  `pySlice`, which reproduces CPython's clamping semantics, including the
  interpretation of negative slice indices.
* Python *indexing* `data[k]` raises `IndexError` when out of range, and
  `struct.unpack` raises when the argument is not exactly 4 bytes.  Every
  function that performs such an access returns an `Option`; `none` is the
  exception outcome and propagates through `do`-notation exactly as a
  Python exception propagates.  `some r` means the Python call returns `r`
  normally.
* IEEE-754 float values are kept opaque: a decoded f32 is represented by
  its four little-endian bytes (`RVal.bits`), and the mathematical
  operations of `MathUtils` are uninterpreted constructors on such values.
  No claim below depends on floating-point arithmetic, only on which
  value is stored where.
* Python's short-circuit `and` in `check_magic_pattern` is embedded by
  nested conditionals, so a byte access after a failed comparison is not
  performed — exactly as in the source.
-/

/-- The 8-byte magic (sync) pattern of the IWR6843, from
`BytesUtils.check_magic_pattern`. -/
def magicPattern : List Nat := [2, 1, 4, 3, 6, 5, 8, 7]

/-- CPython slicing `data[i:j:1]`: negative endpoints count from the end,
then both endpoints are clamped into `[0, len]`; always total. -/
def pySlice (data : List Nat) (i j : Int) : List Nat :=
  let n : Int := data.length
  let i1 : Int := if i < 0 then i + n else i
  let j1 : Int := if j < 0 then j + n else j
  (data.take (max j1 0).toNat).drop (max i1 0).toNat

/-- `BytesUtils.get_uint32`: `data[0] + data[1]*256 + data[2]*65536 +
data[3]*16777216`.  `none` is the `IndexError` raised when the slice has
fewer than four bytes. -/
def BytesUtils.get_uint32 (data : List Nat) : Option Nat :=
  match data with
  | b0 :: b1 :: b2 :: b3 :: _ => some (b0 + b1 * 256 + b2 * 65536 + b3 * 16777216)
  | _ => none

/-- `BytesUtils.get_uint16`: `data[0] + data[1]*256`; `none` is the
`IndexError` on a slice of fewer than two bytes. -/
def BytesUtils.get_uint16 (data : List Nat) : Option Nat :=
  match data with
  | b0 :: b1 :: _ => some (b0 + b1 * 256)
  | _ => none

/-- `BytesUtils.check_magic_pattern`: the source evaluates
`data[0] == 2 and data[1] == 1 and ... and data[7] == 7` with Python's
short-circuit `and`, so a byte is only accessed when all previous
comparisons succeeded; an access past the end raises (`none`). Returns
`some 1` on a full match and `some 0` on a definite mismatch. -/
def BytesUtils.check_magic_pattern (data : List Nat) : Option Nat := do
  if (← data[0]?) = 2 then
    if (← data[1]?) = 1 then
      if (← data[2]?) = 4 then
        if (← data[3]?) = 3 then
          if (← data[4]?) = 6 then
            if (← data[5]?) = 5 then
              if (← data[6]?) = 8 then
                if (← data[7]?) = 7 then
                  pure 1
                else pure 0
              else pure 0
            else pure 0
          else pure 0
        else pure 0
      else pure 0
    else pure 0
  else pure 0

/-- Opaque embedding of the Python float-like values flowing through
`DetectedObject`.  Floating-point arithmetic itself is out of scope; a
value is either the literal `0.0`, four raw little-endian bytes decoded
by `unpack` (an f32 bit pattern), an uninterpreted application of one of
the `MathUtils` functions, an integer from `get_uint16`, or Python's
builtin function `range` (which `DetectedObject.__init__` stores into
`self.computed_range` — see the source, line 248). -/
inductive RVal where
  | zero : RVal
  | bits (b0 b1 b2 b3 : Nat) : RVal
  | rangeOf (x y z : RVal) : RVal
  | azimuthOf (x y : RVal) : RVal
  | elevOf (x y z : RVal) : RVal
  | intVal (n : Nat) : RVal
  | builtinRange : RVal
deriving DecidableEq, Repr

/-- `unpack('<f', decode(hexlify(slice), 'hex'))[0]`: requires exactly four
bytes (`struct.error` otherwise, embedded as `none`); the resulting f32 is
kept as its byte quadruple. -/
def unpack_f32le (data : List Nat) : Option RVal :=
  match data with
  | [b0, b1, b2, b3] => some (RVal.bits b0 b1 b2 b3)
  | _ => none

/-- `MathUtils.get_range` (an uninterpreted float computation here). -/
def MathUtils.get_range (x y z : RVal) : RVal := RVal.rangeOf x y z

/-- `MathUtils.get_azimuth` (uninterpreted). -/
def MathUtils.get_azimuth (x y : RVal) : RVal := RVal.azimuthOf x y

/-- `MathUtils.get_elev_angle` (uninterpreted). -/
def MathUtils.get_elev_angle (x y z : RVal) : RVal := RVal.elevOf x y z

/-- `ParserStatus` enumeration. -/
inductive ParserStatus where
  | TC_PASS : ParserStatus
  | TC_FAIL : ParserStatus
deriving DecidableEq, Repr

/-- `PacketInfo`: header fields, `Int`-valued because the sentinel value of
every field is `-1`. Field order follows `PacketInfo.__init__`. -/
structure PacketInfo where
  header_start_index : Int
  packet_length : Int
  number_detected_objects : Int
  number_tlv : Int
  frame_number : Int
  sub_frame_number : Int
  time_cpu_cycles : Int
deriving DecidableEq, Repr

/-- `PacketInfo()` with all arguments defaulted: the sentinel header. -/
def PacketInfo.default : PacketInfo :=
  { header_start_index := -1
    packet_length := -1
    number_detected_objects := -1
    number_tlv := -1
    frame_number := -1
    sub_frame_number := -1
    time_cpu_cycles := -1 }

/-- `DetectedObject`: one detected-target record. -/
structure DetectedObject where
  x : RVal
  y : RVal
  z : RVal
  v : RVal
  computed_range : RVal
  azimuth : RVal
  elev_angle : RVal
  snr : RVal
  noise : RVal
deriving DecidableEq, Repr

/-- `DetectedObject.__init__`.  NOTE the faithful rendering of the source's
line 248: `self.computed_range = range` stores Python's *builtin function*
`range`, not the `computed_range` parameter (which is silently ignored). -/
def DetectedObject.init (x y z v computed_range azimuth elev_angle snr noise : RVal) :
    DetectedObject :=
  { x := x
    y := y
    z := z
    v := v
    computed_range := RVal.builtinRange
    azimuth := azimuth
    elev_angle := elev_angle
    snr := snr
    noise := noise }

/-- `DetectedObject()` with all arguments defaulted to `0.0`. -/
def DetectedObject.default : DetectedObject :=
  DetectedObject.init .zero .zero .zero .zero .zero .zero .zero .zero .zero

/-- `DetectedObject.tlv_type_1`: overwrite the kinematics fields. -/
def DetectedObject.tlv_type_1 (o : DetectedObject)
    (x y z v computed_range azimuth elev_angle : RVal) : DetectedObject :=
  { o with
    x := x
    y := y
    z := z
    v := v
    computed_range := computed_range
    azimuth := azimuth
    elev_angle := elev_angle }

/-- `DetectedObject.tlv_type_7`: overwrite the quality fields. -/
def DetectedObject.tlv_type_7 (o : DetectedObject) (snr noise : RVal) : DetectedObject :=
  { o with snr := snr, noise := noise }

/-- The scan loop of `PacketHandler._parse_packet_info`
(`for index in range(num_bytes): if check_magic_pattern(data[index:index+8:1]) == 1: ...`),
as a recursion on the number of remaining loop iterations.  `some (-1)`
is loop exhaustion without a match, `some i` a match at `i`, `none` an
`IndexError` escaping from `check_magic_pattern`. -/
def PacketHandler.find_sync_from (data : List Nat) (index : Nat) : Nat → Option Int
  | 0 => some (-1)
  | remaining + 1 => do
    let m ← BytesUtils.check_magic_pattern (pySlice data index (index + 8))
    if m = 1 then
      some index
    else
      PacketHandler.find_sync_from data (index + 1) remaining

/-- The complete scan: `header_start_index = -1` then the loop over
`range(len(data))`. -/
def PacketHandler.find_sync (data : List Nat) : Option Int :=
  PacketHandler.find_sync_from data 0 data.length

/-- `PacketHandler._parse_packet_info`: locate the sync pattern, then read
the six u32 header fields at their fixed offsets; if no sync was found,
return the sentinel `PacketInfo()`. -/
def PacketHandler.parse_packet_info (data : List Nat) : Option PacketInfo := do
  let header_start_index ← PacketHandler.find_sync data
  if header_start_index ≠ -1 then
    let packet_length ← BytesUtils.get_uint32
      (pySlice data (header_start_index + 12) (header_start_index + 16))
    let frame_number ← BytesUtils.get_uint32
      (pySlice data (header_start_index + 20) (header_start_index + 24))
    let time_cpu_cycles ← BytesUtils.get_uint32
      (pySlice data (header_start_index + 24) (header_start_index + 28))
    let number_detected_objects ← BytesUtils.get_uint32
      (pySlice data (header_start_index + 28) (header_start_index + 32))
    let number_tlv ← BytesUtils.get_uint32
      (pySlice data (header_start_index + 32) (header_start_index + 36))
    let sub_frame_number ← BytesUtils.get_uint32
      (pySlice data (header_start_index + 36) (header_start_index + 40))
    pure
      { header_start_index := header_start_index
        packet_length := packet_length
        number_detected_objects := number_detected_objects
        number_tlv := number_tlv
        frame_number := frame_number
        sub_frame_number := sub_frame_number
        time_cpu_cycles := time_cpu_cycles }
  else
    pure PacketInfo.default

/-- `PacketHandler._get_status`.  The final boundary check is guarded by a
short-circuit `and`: the magic-pattern read at
`next_header_start_index` only happens when
`next_header_start_index + 8 < packet_length`. -/
def PacketHandler.get_status (data : List Nat) (packet_info : PacketInfo) :
    Option ParserStatus :=
  if packet_info.header_start_index = -1 then
    some ParserStatus.TC_FAIL
  else if packet_info.number_detected_objects < 0 then
    some ParserStatus.TC_FAIL
  else if packet_info.sub_frame_number > 3 then
    some ParserStatus.TC_FAIL
  else if packet_info.header_start_index + packet_info.packet_length > data.length then
    some ParserStatus.TC_FAIL
  else
    let next_header_start_index :=
      packet_info.header_start_index + packet_info.packet_length
    if next_header_start_index + 8 < packet_info.packet_length then do
      let m ← BytesUtils.check_magic_pattern
        (pySlice data next_header_start_index (next_header_start_index + 8))
      if m = 0 then some ParserStatus.TC_FAIL else some ParserStatus.TC_PASS
    else
      some ParserStatus.TC_PASS

/-- The type-1 (kinematics) loop of `PacketHandler._parse_tlvs`, recursion
on the remaining iteration count; `obj` is the current slot index and
`offset` the running byte offset (starts at 8). -/
def PacketHandler.tlv1_loop (data : List Nat) (tlv_start : Int) :
    List DetectedObject → Nat → Nat → Nat → Option (List DetectedObject)
  | objs, _, _, 0 => some objs
  | objs, offset, obj, count + 1 => do
    let x ← unpack_f32le (pySlice data (tlv_start + offset) (tlv_start + offset + 4))
    let y ← unpack_f32le (pySlice data (tlv_start + offset + 4) (tlv_start + offset + 8))
    let z ← unpack_f32le (pySlice data (tlv_start + offset + 8) (tlv_start + offset + 12))
    let v ← unpack_f32le (pySlice data (tlv_start + offset + 12) (tlv_start + offset + 16))
    let computed_range := MathUtils.get_range x y z
    let azimuth := MathUtils.get_azimuth x y
    let elev_angle := MathUtils.get_elev_angle x y z
    let objs' := objs.set obj
      ((objs.getD obj DetectedObject.default).tlv_type_1 x y z v computed_range azimuth elev_angle)
    PacketHandler.tlv1_loop data tlv_start objs' (offset + 16) (obj + 1) count

/-- The type-7 (quality) loop of `PacketHandler._parse_tlvs`. -/
def PacketHandler.tlv7_loop (data : List Nat) (tlv_start : Int) :
    List DetectedObject → Nat → Nat → Nat → Option (List DetectedObject)
  | objs, _, _, 0 => some objs
  | objs, offset, obj, count + 1 => do
    let snr ← BytesUtils.get_uint16 (pySlice data (tlv_start + offset) (tlv_start + offset + 2))
    let noise ← BytesUtils.get_uint16 (pySlice data (tlv_start + offset + 2) (tlv_start + offset + 4))
    let objs' := objs.set obj
      ((objs.getD obj DetectedObject.default).tlv_type_7 (RVal.intVal snr) (RVal.intVal noise))
    PacketHandler.tlv7_loop data tlv_start objs' (offset + 4) (obj + 1) count

/-- `PacketHandler._parse_tlvs`: pre-allocate
`number_detected_objects` default `DetectedObject()` slots, read the first
TLV sub-header, run the type-1 loop when `tlv_type == 1 and
tlv_len < packet_length`, jump by the *declared* length, read the second
sub-header (both reads can raise), and run the type-7 loop when
`tlv_type == 7`. -/
def PacketHandler.parse_tlvs (data : List Nat) (packet_info : PacketInfo) :
    Option (List DetectedObject) := do
  let detected_objects :=
    List.replicate packet_info.number_detected_objects.toNat DetectedObject.default
  let tlv_start := packet_info.header_start_index + 40
  let tlv_type ← BytesUtils.get_uint32 (pySlice data (tlv_start + 0) (tlv_start + 4))
  let tlv_len ← BytesUtils.get_uint32 (pySlice data (tlv_start + 4) (tlv_start + 8))
  let detected_objects ←
    if tlv_type = 1 ∧ (tlv_len : Int) < packet_info.packet_length then
      PacketHandler.tlv1_loop data tlv_start detected_objects 8 0
        packet_info.number_detected_objects.toNat
    else
      pure detected_objects
  let tlv_start := tlv_start + 8 + (tlv_len : Int)
  let tlv_type ← BytesUtils.get_uint32 (pySlice data (tlv_start + 0) (tlv_start + 4))
  let _tlv_len ← BytesUtils.get_uint32 (pySlice data (tlv_start + 4) (tlv_start + 8))
  let detected_objects ←
    if tlv_type = 7 then
      PacketHandler.tlv7_loop data tlv_start detected_objects 8 0
        packet_info.number_detected_objects.toNat
    else
      pure detected_objects
  pure detected_objects

/-- `PacketHandler.parser`: the decode entry point.  Outer `none` is an
escaping Python exception; `some none` is a normal return of `None`;
`some (some objs)` is a normal return of the object list. -/
def PacketHandler.parser (data : List Nat) : Option (Option (List DetectedObject)) := do
  let packet_info ← PacketHandler.parse_packet_info data
  let status ← PacketHandler.get_status data packet_info
  match status with
  | ParserStatus.TC_PASS => do
    let objs ← PacketHandler.parse_tlvs data packet_info
    pure (some objs)
  | ParserStatus.TC_FAIL => pure none

/-! ## Helper lemmas about the embedding -/

lemma pySlice_nat (data : List Nat) (i j : Nat) :
    pySlice data (i : Int) (j : Int) = (data.take j).drop i := by
  simp only [pySlice]
  have h1 : ((if (i : Int) < 0 then (i : Int) + data.length else (i : Int)) ⊔ 0).toNat = i := by
    rw [if_neg (by omega), max_eq_left (by positivity)]
    exact Int.toNat_natCast i
  have h2 : ((if (j : Int) < 0 then (j : Int) + data.length else (j : Int)) ⊔ 0).toNat = j := by
    rw [if_neg (by omega), max_eq_left (by positivity)]
    exact Int.toNat_natCast j
  rw [h1, h2]

lemma take4_eq (l : List Nat) (h : 4 ≤ l.length) :
    l.take 4 = [l.getD 0 0, l.getD 1 0, l.getD 2 0, l.getD 3 0] := by
  match l, h with
  | a :: b :: c :: d :: t, _ => rfl

lemma check_magic_len8 (w : List Nat) (hw : w.length = 8) :
    BytesUtils.check_magic_pattern w = some (if w = magicPattern then 1 else 0) := by
  match w, hw with
  | [a, b, c, d, e, f, g, h], _ =>
    show (if a = 2 then
            if b = 1 then
              if c = 4 then
                if d = 3 then
                  if e = 6 then
                    if f = 5 then
                      if g = 8 then
                        if h = 7 then some 1 else some 0
                      else some 0
                    else some 0
                  else some 0
                else some 0
              else some 0
            else some 0
          else some 0) = some (if [a, b, c, d, e, f, g, h] = magicPattern then 1 else 0)
    simp only [magicPattern, List.cons.injEq, and_true]
    split_ifs <;> simp_all

lemma pySlice_window (data : List Nat) (j : Nat) :
    pySlice data (j : Int) ((j : Int) + 8) = (data.drop j).take 8 := by
  have h : ((j : Int) + 8) = ((j + 8 : Nat) : Int) := by push_cast; ring
  rw [h, pySlice_nat, List.drop_take]
  congr 1
  omega

lemma window_length (data : List Nat) (j : Nat) (h : j + 8 ≤ data.length) :
    ((data.drop j).take 8).length = 8 := by
  simp [List.length_take, List.length_drop]
  omega

lemma magic_window_le (data : List Nat) (i : Nat)
    (hi : (data.drop i).take 8 = magicPattern) : i + 8 ≤ data.length := by
  have h8 : ((data.drop i).take 8).length = 8 := by rw [hi]; rfl
  simp [List.length_take, List.length_drop] at h8
  omega

lemma find_sync_from_found (data : List Nat) (i : Nat)
    (hi : (data.drop i).take 8 = magicPattern) :
    ∀ r idx, idx ≤ i → i < idx + r →
      (∀ j, idx ≤ j → j < i → (data.drop j).take 8 ≠ magicPattern) →
      PacketHandler.find_sync_from data idx r = some (i : Int) := by
  intro r
  induction r with
  | zero => intro idx h1 h2 _; omega
  | succ r ih =>
    intro idx h1 h2 hno
    have hlen : i + 8 ≤ data.length := magic_window_le data i hi
    rcases Nat.eq_or_lt_of_le h1 with heq | hlt
    · subst heq
      unfold PacketHandler.find_sync_from
      rw [pySlice_window, hi]
      have : BytesUtils.check_magic_pattern magicPattern = some 1 := by decide
      rw [this]
      rfl
    · have hwlen : ((data.drop idx).take 8).length = 8 :=
        window_length data idx (by omega)
      unfold PacketHandler.find_sync_from
      rw [pySlice_window, check_magic_len8 _ hwlen, if_neg (hno idx le_rfl hlt)]
      show PacketHandler.find_sync_from data (idx + 1) r = some (i : Int)
      exact ih (idx + 1) hlt (by omega) (fun j hj1 hj2 => hno j (by omega) hj2)

lemma find_sync_found (data : List Nat) (i : Nat)
    (hi : (data.drop i).take 8 = magicPattern)
    (hfirst : ∀ j, j < i → (data.drop j).take 8 ≠ magicPattern) :
    PacketHandler.find_sync data = some (i : Int) := by
  have hlen : i + 8 ≤ data.length := magic_window_le data i hi
  exact find_sync_from_found data i hi data.length 0 (Nat.zero_le i) (by omega)
    (fun j _ hj2 => hfirst j hj2)

/-- The value of `get_uint32` on a four-byte slice `data[i:i+4]` that lies
inside the buffer, expressed through the buffer's bytes.  Stated with free
`Int` endpoints so it rewrites directly inside `parse_packet_info`. -/
lemma get_uint32_slice (data : List Nat) (a b : Int) (i : Nat)
    (ha : a = (i : Int)) (hb : b = (i : Int) + 4) (h : i + 4 ≤ data.length) :
    BytesUtils.get_uint32 (pySlice data a b) =
      some (data.getD i 0 + data.getD (i + 1) 0 * 256 +
        data.getD (i + 2) 0 * 65536 + data.getD (i + 3) 0 * 16777216) := by
  subst ha hb
  have hcast : ((i : Int) + 4) = ((i + 4 : Nat) : Int) := by push_cast; ring
  rw [hcast, pySlice_nat, List.drop_take]
  have h4 : (i + 4) - i = 4 := by omega
  rw [h4, take4_eq _ (by simp [List.length_drop]; omega)]
  have e0 : (data.drop i).getD 0 0 = data.getD (i + 0) 0 := by
    simp [List.getD_eq_getElem?_getD, List.getElem?_drop]
  have e1 : (data.drop i).getD 1 0 = data.getD (i + 1) 0 := by
    simp [List.getD_eq_getElem?_getD, List.getElem?_drop]
  have e2 : (data.drop i).getD 2 0 = data.getD (i + 2) 0 := by
    simp [List.getD_eq_getElem?_getD, List.getElem?_drop]
  have e3 : (data.drop i).getD 3 0 = data.getD (i + 3) 0 := by
    simp [List.getD_eq_getElem?_getD, List.getElem?_drop]
  rw [BytesUtils.get_uint32, e0, e1, e2, e3]
  simp

/-! ## Claims -/

/-- Buffer used to exhibit the `DetectedObject.__init__` defect end to end:
sync + 40-byte header declaring `packet_length = 56`, one detected object,
zero-typed TLV sub-headers, so both TLV blocks are skipped and the decoder
returns the freshly allocated (supposedly zeroed) object unchanged. -/
def c1buf : List Nat :=
  magicPattern ++
    [0, 0, 0, 0, 56, 0, 0, 0, 0, 0, 0, 0, 0, 0, 0, 0, 0, 0, 0, 0,
     1, 0, 0, 0, 0, 0, 0, 0, 0, 0, 0, 0] ++ List.replicate 16 0

/-- Claim C1.  The decoder does pre-allocate `num_detected_objects` default
records, but a default `DetectedObject` is NOT fully zeroed: the source's
line 248 reads `self.computed_range = range`, storing Python's builtin
function `range` instead of the parameter (whose default is `0.0`), in
contradiction with the constructor's own docstring.  All other eight
fields are zero; `computed_range` is not, and a full decode of `c1buf`
(whose TLV blocks are skipped) returns an object carrying the builtin. -/
theorem claim_C1 :
    DetectedObject.default.x = RVal.zero ∧
    DetectedObject.default.y = RVal.zero ∧
    DetectedObject.default.z = RVal.zero ∧
    DetectedObject.default.v = RVal.zero ∧
    DetectedObject.default.azimuth = RVal.zero ∧
    DetectedObject.default.elev_angle = RVal.zero ∧
    DetectedObject.default.snr = RVal.zero ∧
    DetectedObject.default.noise = RVal.zero ∧
    DetectedObject.default.computed_range = RVal.builtinRange ∧
    DetectedObject.default.computed_range ≠ RVal.zero ∧
    PacketHandler.parser c1buf = some (some [DetectedObject.default]) := by
  decide

/-- Claim C2.  The decode entry point is NOT total: on the buffer that is
exactly the eight sync bytes, the sync is located at offset 0, and the
header-field read `data[12:16]` produces an empty slice whose indexing in
`get_uint32` raises `IndexError` (outer `none`), instead of terminating
normally. -/
theorem claim_C2 :
    PacketHandler.parser [2, 1, 4, 3, 6, 5, 8, 7] = none := by decide

/-- Claim C3.  A buffer with no full sync pattern at any offset need not
decode to `None`: on `[2]` the scan window at offset 0 is the single byte
`2`, which matches the first pattern byte, after which `data[1]` raises
`IndexError` — the parser crashes before the sentinel header or the
validator is ever reached.  (`[2].take 8 ≠ magicPattern` records that the
only window of this buffer does not hold the full pattern.) -/
theorem claim_C3 :
    ([2] : List Nat).take 8 ≠ magicPattern ∧
    PacketHandler.parse_packet_info [2] = none ∧
    PacketHandler.parser [2] = none := by decide

/-- Claim C4: for a non-sentinel header passing validator checks 1-4, if
the literal boundary-gap guard `start + length + 8 < length` holds and the
magic-pattern read at `start + length` yields a definite non-match, the
validator returns `TC_FAIL`. -/
theorem claim_C4 (data : List Nat) (info : PacketInfo)
    (h1 : info.header_start_index ≠ -1)
    (h2 : ¬ info.number_detected_objects < 0)
    (h3 : ¬ info.sub_frame_number > 3)
    (h4 : ¬ info.header_start_index + info.packet_length > (data.length : Int))
    (h5 : info.header_start_index + info.packet_length + 8 < info.packet_length)
    (h6 : BytesUtils.check_magic_pattern
      (pySlice data (info.header_start_index + info.packet_length)
        (info.header_start_index + info.packet_length + 8)) = some 0) :
    PacketHandler.get_status data info = some ParserStatus.TC_FAIL := by
  simp only [PacketHandler.get_status]
  rw [if_neg h1, if_neg h2, if_neg h3, if_neg h4, if_pos h5, h6]
  rfl

/-- Witness for claim C4: a concrete (hand-built, negative-offset) header
satisfying all six hypotheses, on a 20-byte zero buffer. -/
theorem claim_C4_witness :
    ((⟨-30, 5, 0, 0, 0, 0, 0⟩ : PacketInfo).header_start_index ≠ -1) ∧
    (¬ (⟨-30, 5, 0, 0, 0, 0, 0⟩ : PacketInfo).number_detected_objects < 0) ∧
    (¬ (⟨-30, 5, 0, 0, 0, 0, 0⟩ : PacketInfo).sub_frame_number > 3) ∧
    (¬ (-30 : Int) + 5 > ((List.replicate 20 0 : List Nat).length : Int)) ∧
    ((-30 : Int) + 5 + 8 < 5) ∧
    (BytesUtils.check_magic_pattern
      (pySlice (List.replicate 20 0) ((-30 : Int) + 5) ((-30 : Int) + 5 + 8)) = some 0) ∧
    PacketHandler.get_status (List.replicate 20 0) ⟨-30, 5, 0, 0, 0, 0, 0⟩ =
      some ParserStatus.TC_FAIL :=
  ⟨by decide, by decide, by decide, by decide, by decide, by decide,
    claim_C4 (List.replicate 20 0) ⟨-30, 5, 0, 0, 0, 0, 0⟩
      (by decide) (by decide) (by decide) (by decide) (by decide) (by decide)⟩

/-- Claim C5: whenever `header_start_index ≥ 0`, `num_detected_objects ≥ 0`,
`sub_frame_number ≤ 3` and the declared frame fits the buffer, the
validator returns `TC_PASS`: the boundary guard
`start + length + 8 < length` is unsatisfiable for `start ≥ 0`, so the
secondary next-frame sync check can never fire and classification never
reads the buffer. -/
theorem claim_C5 (data : List Nat) (info : PacketInfo)
    (h0 : 0 ≤ info.header_start_index)
    (h1 : 0 ≤ info.number_detected_objects)
    (h2 : info.sub_frame_number ≤ 3)
    (h3 : info.header_start_index + info.packet_length ≤ (data.length : Int)) :
    PacketHandler.get_status data info = some ParserStatus.TC_PASS := by
  simp only [PacketHandler.get_status]
  rw [if_neg (by omega), if_neg (by omega), if_neg (by omega), if_neg (by omega),
    if_neg (by omega)]

/-- Witness for claim C5: the all-zero header on the empty buffer. -/
theorem claim_C5_witness :
    (0 ≤ (⟨0, 0, 0, 0, 0, 0, 0⟩ : PacketInfo).header_start_index) ∧
    (0 ≤ (⟨0, 0, 0, 0, 0, 0, 0⟩ : PacketInfo).number_detected_objects) ∧
    ((⟨0, 0, 0, 0, 0, 0, 0⟩ : PacketInfo).sub_frame_number ≤ 3) ∧
    ((0 : Int) + 0 ≤ (([] : List Nat).length : Int)) ∧
    PacketHandler.get_status [] ⟨0, 0, 0, 0, 0, 0, 0⟩ = some ParserStatus.TC_PASS :=
  ⟨by decide, by decide, by decide, by decide,
    claim_C5 [] ⟨0, 0, 0, 0, 0, 0, 0⟩ (by decide) (by decide) (by decide) (by decide)⟩

/-- Little-endian 4-byte encoding of a u32, as described by the spec's
round-trip property (spec-side definition for claim C8). -/
def encode_u32le (u : Nat) : List Nat :=
  [u % 256, u / 256 % 256, u / 65536 % 256, u / 16777216 % 256]

/-- Little-endian 2-byte encoding of a u16 (spec-side, claim C8). -/
def encode_u16le (u : Nat) : List Nat :=
  [u % 256, u / 256 % 256]

/-- Claim C8: `get_uint32` and `get_uint16` invert little-endian encoding
on their full ranges. -/
theorem claim_C8 (u v : Nat) (hu : u < 4294967296) (hv : v < 65536) :
    BytesUtils.get_uint32 (encode_u32le u) = some u ∧
    BytesUtils.get_uint16 (encode_u16le v) = some v := by
  constructor
  · show some (u % 256 + u / 256 % 256 * 256 + u / 65536 % 256 * 65536 +
      u / 16777216 % 256 * 16777216) = some u
    exact congrArg some (by omega)
  · show some (v % 256 + v / 256 % 256 * 256) = some v
    exact congrArg some (by omega)

/-- Witness for claim C8 at `u = 3735928559`, `v = 48879`. -/
theorem claim_C8_witness :
    3735928559 < 4294967296 ∧ 48879 < 65536 ∧
    (BytesUtils.get_uint32 (encode_u32le 3735928559) = some 3735928559 ∧
      BytesUtils.get_uint16 (encode_u16le 48879) = some 48879) :=
  ⟨by decide, by decide, claim_C8 3735928559 48879 (by decide) (by decide)⟩

/-- Claim C10: the decoder is a pure function of the buffer it is given —
the embedding of `PacketHandler.parser` consumes only its argument (the
source uses only classmethods and local variables, no module or class
state), so two invocations on the same buffer contents yield equal
results. -/
theorem claim_C10 (data : List Nat) :
    PacketHandler.parser data = PacketHandler.parser data := rfl

/-- Claim C6: if the buffer holds the full sync pattern at index `i` and at
no smaller index, the single forward scan locates exactly `i` (first
occurrence wins). -/
theorem claim_C6 (data : List Nat) (i : Nat)
    (hi : (data.drop i).take 8 = magicPattern)
    (hfirst : ∀ j, j < i → (data.drop j).take 8 ≠ magicPattern) :
    PacketHandler.find_sync data = some (i : Int) :=
  find_sync_found data i hi hfirst

/-- Witness for claim C6: the bare sync pattern, found at offset 0. -/
theorem claim_C6_witness :
    (magicPattern.drop 0).take 8 = magicPattern ∧
    PacketHandler.find_sync magicPattern = some ((0 : Nat) : Int) :=
  ⟨by decide, claim_C6 magicPattern 0 (by decide) (fun j hj => (Nat.not_lt_zero j hj).elim)⟩

/-- The spec's wire-layout description of one u32 little-endian header
field located `k` bytes after the sync offset `s` (spec 4.3): the
spec-side value against which claim C7 compares the parsed header. -/
def headerFieldU32 (data : List Nat) (s k : Nat) : Int :=
  ((data.getD (s + k) 0 + data.getD (s + k + 1) 0 * 256 +
    data.getD (s + k + 2) 0 * 65536 + data.getD (s + k + 3) 0 * 16777216 : Nat) : Int)

/-- A buffer holding the sync pattern at offsets 0 and 8, with 40 bytes
available from offset 8: the claim-C7 counterexample input. -/
def c7buf : List Nat := magicPattern ++ magicPattern ++ List.replicate 32 9

/-- Claim C7 as stated is false: it quantifies over EVERY offset `s`
holding a sync pattern with 40 bytes available, but the scan parses at the
FIRST occurrence only.  In `c7buf` the pattern occurs at 8 (with 40 bytes
following), yet the header is parsed at 0, so its `packet_length` is not
the u32 at bytes `[8+12, 8+16)`. -/
theorem claim_C7_counterexample :
    (c7buf.drop 8).take 8 = magicPattern ∧ 8 + 40 ≤ c7buf.length ∧
    (PacketHandler.parse_packet_info c7buf).map PacketInfo.packet_length ≠
      some (headerFieldU32 c7buf 8 12) := by
  decide

/-- Claim C7, amended with the missing first-occurrence hypothesis: if the
sync pattern sits at `s`, at no smaller offset, and 40 bytes are available
from `s`, the parsed header carries exactly the little-endian u32 decodes
of the fixed byte ranges relative to `s`, each under its like-named
field. -/
theorem claim_C7_amended (data : List Nat) (s : Nat)
    (hsync : (data.drop s).take 8 = magicPattern)
    (hfirst : ∀ j, j < s → (data.drop j).take 8 ≠ magicPattern)
    (hlen : s + 40 ≤ data.length) :
    PacketHandler.parse_packet_info data =
      some
        { header_start_index := (s : Int)
          packet_length := headerFieldU32 data s 12
          number_detected_objects := headerFieldU32 data s 28
          number_tlv := headerFieldU32 data s 32
          frame_number := headerFieldU32 data s 20
          sub_frame_number := headerFieldU32 data s 36
          time_cpu_cycles := headerFieldU32 data s 24 } := by
  have hfs := find_sync_found data s hsync hfirst
  have g12 := get_uint32_slice data ((s : Int) + 12) ((s : Int) + 16) (s + 12)
    (by push_cast; ring) (by push_cast; ring) (by omega)
  have g20 := get_uint32_slice data ((s : Int) + 20) ((s : Int) + 24) (s + 20)
    (by push_cast; ring) (by push_cast; ring) (by omega)
  have g24 := get_uint32_slice data ((s : Int) + 24) ((s : Int) + 28) (s + 24)
    (by push_cast; ring) (by push_cast; ring) (by omega)
  have g28 := get_uint32_slice data ((s : Int) + 28) ((s : Int) + 32) (s + 28)
    (by push_cast; ring) (by push_cast; ring) (by omega)
  have g32 := get_uint32_slice data ((s : Int) + 32) ((s : Int) + 36) (s + 32)
    (by push_cast; ring) (by push_cast; ring) (by omega)
  have g36 := get_uint32_slice data ((s : Int) + 36) ((s : Int) + 40) (s + 36)
    (by push_cast; ring) (by push_cast; ring) (by omega)
  unfold PacketHandler.parse_packet_info
  rw [hfs]
  simp only [Option.bind_eq_bind, Option.some_bind]
  rw [if_pos (show (s : Int) ≠ -1 by omega)]
  simp only [Option.bind_eq_bind, Option.some_bind, g12, g20, g24, g28, g32, g36,
    headerFieldU32, Option.pure_def]

/-- Witness buffer for the amended claim C7: sync at 0 then 32 one-bytes. -/
def c7wit : List Nat := magicPattern ++ List.replicate 32 1

/-- Witness for the amended claim C7 at `s = 0` on `c7wit`. -/
theorem claim_C7_witness :
    (c7wit.drop 0).take 8 = magicPattern ∧ 0 + 40 ≤ c7wit.length ∧
    PacketHandler.parse_packet_info c7wit =
      some
        { header_start_index := ((0 : Nat) : Int)
          packet_length := headerFieldU32 c7wit 0 12
          number_detected_objects := headerFieldU32 c7wit 0 28
          number_tlv := headerFieldU32 c7wit 0 32
          frame_number := headerFieldU32 c7wit 0 20
          sub_frame_number := headerFieldU32 c7wit 0 36
          time_cpu_cycles := headerFieldU32 c7wit 0 24 } :=
  ⟨by decide, by decide,
    claim_C7_amended c7wit 0 (by decide) (fun j hj => (Nat.not_lt_zero j hj).elim)
      (by decide)⟩

/-- Claim C9: a located header whose declared `packet_length` extends past
the end of the buffer is always classified `TC_FAIL`, and the decode entry
point returns `None` (normally, without reading any TLV bytes). -/
theorem claim_C9 (data : List Nat) (info : PacketInfo)
    (hparse : PacketHandler.parse_packet_info data = some info)
    (htrunc : info.header_start_index + info.packet_length > (data.length : Int)) :
    PacketHandler.get_status data info = some ParserStatus.TC_FAIL ∧
    PacketHandler.parser data = some none := by
  have hst : PacketHandler.get_status data info = some ParserStatus.TC_FAIL := by
    simp only [PacketHandler.get_status]
    split_ifs <;> rfl
  refine ⟨hst, ?_⟩
  unfold PacketHandler.parser
  rw [hparse]
  simp only [Option.bind_eq_bind, Option.some_bind, hst]
  rfl

/-- Buffer for the claim-C9 witness: a sync pattern followed by 32 `0xFF`
bytes, so the declared packet length is 4294967295. -/
def c9buf : List Nat := magicPattern ++ List.replicate 32 255

/-- The header parsed from `c9buf`. -/
def c9info : PacketInfo :=
  ⟨0, 4294967295, 4294967295, 4294967295, 4294967295, 4294967295, 4294967295⟩

/-- Witness for claim C9 on `c9buf`. -/
theorem claim_C9_witness :
    PacketHandler.parse_packet_info c9buf = some c9info ∧
    c9info.header_start_index + c9info.packet_length > (c9buf.length : Int) ∧
    (PacketHandler.get_status c9buf c9info = some ParserStatus.TC_FAIL ∧
      PacketHandler.parser c9buf = some none) :=
  ⟨by decide, by decide, claim_C9 c9buf c9info (by decide) (by decide)⟩
